import Mathlib

/-!
Verification development for `hvsnetwork.py` (HVS Network Mapper).

The script is a single sequential procedure: it loads a GeoJSON feature
collection, keeps the first 100 features, normalizes each feature's geometry
(buffer / simplify / linemerge when it is a MultiLineString), polyline-encodes
the coordinates, queries an OSRM map-matching endpoint with a retry loop on
HTTP 429, collects one record per successful match, and dumps the records to
CSV through a data-frame library.

The embedding below models the third-party geometry library (shapely) and the
polyline encoder as uninterpreted operations collected in a `Libs` structure,
since those calls are external to the repository; everything the script itself
does (control flow, retry loop, record construction, truncation, CSV layout)
is translated directly from the source.  The HTTP server is modelled as a map
from the index of the processed feature to the finite list of successive
responses the server gives to the repeated GETs of that feature's URL; the
script's `while` loop on status 429 consumes that list, so exhausting an
all-429 list models the loop still running after that many retries.

The script's docstring states it runs under Python 2, so `int(...) / 2` on
line 116 is integer floor division; `retryTime` models it with `Int.fdiv`.
-/

namespace HvsNetwork

/-- One leg of an OSRM route: `legs[k].annotation.nodes` of the JSON body. -/
structure Leg where
  nodes : List Int
deriving DecidableEq

/-- One OSRM route: its legs and `geometry.coordinates`. -/
structure Route where
  legs : List Leg
  coordinates : List (Rat × Rat)
deriving DecidableEq

/-- One HTTP response from the OSRM server: status code, headers (values
already converted to integers, as `int(...)` does on line 116), and the
`routes` array of the JSON body (meaningful on status 200). -/
structure OsrmResponse where
  status_code : Nat
  headers : List (String × Int)
  routes : List Route
deriving DecidableEq

/-- The dictionary appended to `return_list` on lines 137-139. -/
structure MatchRecord where
  id : String
  name : String
  node_list : List (List Int)
  coord_list : List (Rat × Rat)
deriving DecidableEq

/-- The third-party library operations the script calls (shapely's
`geom_type`, `buffer`, `simplify`, `linemerge`, `.coords`, `str`, and
`polyline.encode`), left uninterpreted over an abstract geometry type `G`. -/
structure Libs (G : Type) where
  geomType : G → String
  buffer : G → Rat → G
  simplify : G → Rat → Bool → G
  linemerge : G → G
  coords : G → List (Rat × Rat)
  showGeom : G → String
  polylineEncode : List (Rat × Rat) → Nat → String

/-- One input feature: `properties.ROAD`, `properties.ROAD_NAME` and the
geometry obtained by `shape(each_feature["geometry"])` (line 74-78). -/
structure Feature (G : Type) where
  road : String
  road_name : String
  geometry : G

/-- Line 116 under Python 2: `int(headers['X-Rate-Limit-Interval']) / 2`
is integer floor division. -/
def retryTime (v : Int) : Int := Int.fdiv v 2

/-- Lines 81-91: if the geometry is a MultiLineString, buffer with radius
0.1, simplify with tolerance 0.1 and `preserve_topology = False`, then
linemerge; otherwise the geometry is left untouched. -/
def normalizeGeometry {G : Type} (libs : Libs G) (g : G) : G :=
  if libs.geomType g = "MultiLineString" then
    libs.linemerge (libs.simplify (libs.buffer g (1/10)) (1/10) false)
  else g

/-- Lines 99-101: the OSRM request URL built from the encoded polyline. -/
def osrmUrl (osrm_server encoded : String) : String :=
  osrm_server ++ "route/v1/driving/polyline(" ++ encoded ++
    ")?steps=false&geometries=geojson&overview=full&annotations=true"

/-- The URL requested for a feature: encode the normalized geometry's
coordinates with precision 5 (line 96) and splice into the URL. -/
def featureUrl {G : Type} (libs : Libs G) (osrm_server : String)
    (f : Feature G) : String :=
  osrmUrl osrm_server
    (libs.polylineEncode (libs.coords (normalizeGeometry libs f.geometry)) 5)

/-- Line 105: `chosen_osrm_match = 0`. -/
def chosen_osrm_match : Nat := 0

/-- Line 144-145: the failure message printed for a non-200, non-429 status. -/
def failMsg (status : Nat) : String :=
  "Iteration failed with HTTP error code " ++ toString status

/-- Lines 128-139: on a 200 response, take route `chosen_osrm_match`, the
per-leg node lists, and the route geometry's coordinates.  `none` models the
`IndexError` raised when `routes` has no entry at that index. -/
def buildRecord (road_id road_name : String) (resp : OsrmResponse) :
    Option MatchRecord :=
  match resp.routes.get? chosen_osrm_match with
  | none => none
  | some route =>
      some ⟨road_id, road_name, route.legs.map Leg.nodes, route.coordinates⟩

/-- Result of the `while (status_code == 429)` loop of lines 112-122 when run
against a finite list of further responses:
`exited s r` — the loop exited normally with final response `r` after the
sleeps in `s`; `keyError s` — a 429 response carried no
`X-Rate-Limit-Interval` header, so line 116 raises an unhandled `KeyError`;
`starved s` — every provided response was a processable 429, so after the
sleeps in `s` the loop is still running (it would issue yet another GET). -/
inductive LoopOut
  | exited (sleeps : List Int) (resp : OsrmResponse)
  | keyError (sleeps : List Int)
  | starved (sleeps : List Int)
deriving DecidableEq

/-- Lines 112-122: the retry loop.  `r` is the response currently held in
`osrm_data`; `rest` are the responses the server would give to the successive
re-requests of line 122. -/
def retryLoop : OsrmResponse → List OsrmResponse → LoopOut
  | r, rest =>
    if r.status_code = 429 then
      match List.lookup "X-Rate-Limit-Interval" r.headers with
      | none => .keyError []
      | some v =>
        match rest with
        | [] => .starved [retryTime v]
        | r2 :: rs =>
          match retryLoop r2 rs with
          | .exited s resp => .exited (retryTime v :: s) resp
          | .keyError s => .keyError (retryTime v :: s)
          | .starved s => .starved (retryTime v :: s)
    else .exited [] r

/-- What happens to one feature after the retry loop: a record is appended,
or the feature is dropped with a status-code message, or the program crashes
(unhandled exception), or the retry loop is still spinning. -/
inductive Outcome
  | matched (rec : MatchRecord)
  | dropped (status : Nat)
  | crashed
  | hung
deriving DecidableEq

/-- Lines 124-145 applied to the loop's result: on 200 build the record
(crashing if `routes[0]` does not exist), otherwise print the failure
message and drop the feature.  Returns (sleeps, extra prints, outcome). -/
def afterLoop (road_id road_name : String) :
    LoopOut → List Int × List String × Outcome
  | .keyError s => (s, [], .crashed)
  | .starved s => (s, [], .hung)
  | .exited s r =>
    if r.status_code = 200 then
      match buildRecord road_id road_name r with
      | none => (s, [], .crashed)
      | some rec => (s, [], .matched rec)
    else (s, [failMsg r.status_code], .dropped r.status_code)

/-- Everything observable about processing one feature: the URL requested,
the lines printed, the sleep durations, the number of HTTP GETs issued
(one initial GET plus one per sleep), and the outcome. -/
structure FeatOut where
  url : String
  printed : List String
  sleeps : List Int
  requests : Nat
  outcome : Outcome
deriving DecidableEq

/-- Lines 74-145: the whole loop body for one feature.  `resps` is the list
of successive responses the server gives for this feature's URL; an empty
list (no response to the first GET) is modelled as the process still waiting,
i.e. `hung`.  Line 93 prints the (normalized) geometry before encoding. -/
def processFeature {G : Type} (libs : Libs G) (osrm_server : String)
    (f : Feature G) (resps : List OsrmResponse) : FeatOut :=
  let g := normalizeGeometry libs f.geometry
  let url := featureUrl libs osrm_server f
  match resps with
  | [] => ⟨url, [libs.showGeom g], [], 1, .hung⟩
  | r0 :: rest =>
    let res := afterLoop f.road f.road_name (retryLoop r0 rest)
    ⟨url, [libs.showGeom g] ++ res.2.1, res.1, 1 + res.1.length, res.2.2⟩

/-- Result of the whole feature loop: `finished` reaches the CSV export of
lines 147-151, `aborted` does not (an unhandled exception terminated the
process, or the retry loop never terminated). -/
inductive RunOut
  | finished (records : List MatchRecord) (printed : List String)
      (sleeps : List Int)
  | aborted (records : List MatchRecord) (printed : List String)
      (sleeps : List Int)
deriving DecidableEq

/-- The accumulated `return_list` at the end (or at the moment of abort). -/
def RunOut.records : RunOut → List MatchRecord
  | .finished rs _ _ => rs
  | .aborted rs _ _ => rs

/-- All lines printed during the feature loop. -/
def RunOut.printed : RunOut → List String
  | .finished _ p _ => p
  | .aborted _ p _ => p

/-- All sleep durations during the feature loop. -/
def RunOut.sleeps : RunOut → List Int
  | .finished _ _ s => s
  | .aborted _ _ s => s

/-- Whether the run aborted before reaching the CSV export. -/
def RunOut.isAborted : RunOut → Bool
  | .finished _ _ _ => false
  | .aborted _ _ _ => true

/-- Lines 71-145: iterate over the feature list, appending a record per
matched feature, skipping dropped ones, and aborting the run on a crash or a
never-terminating retry loop.  `server i` is the response list for the
`i`-th processed feature. -/
def runFeatures {G : Type} (libs : Libs G) (osrm_server : String)
    (server : Nat → List OsrmResponse) :
    List (Feature G) → Nat → RunOut
  | [], _ => .finished [] [] []
  | f :: fs, i =>
    let fo := processFeature libs osrm_server f (server i)
    match fo.outcome with
    | .matched rec =>
      match runFeatures libs osrm_server server fs (i + 1) with
      | .finished rs p s => .finished (rec :: rs) (fo.printed ++ p) (fo.sleeps ++ s)
      | .aborted rs p s => .aborted (rec :: rs) (fo.printed ++ p) (fo.sleeps ++ s)
    | .dropped _ =>
      match runFeatures libs osrm_server server fs (i + 1) with
      | .finished rs p s => .finished rs (fo.printed ++ p) (fo.sleeps ++ s)
      | .aborted rs p s => .aborted rs (fo.printed ++ p) (fo.sleeps ++ s)
    | .crashed => .aborted [] fo.printed fo.sleeps
    | .hung => .aborted [] fo.printed fo.sleeps

/-- Line 65: `hvs_json["features"][0:100]`. -/
def processedFeatures {G : Type} (features : List (Feature G)) :
    List (Feature G) :=
  features.take 100

/-- Lines 63-145: the feature loop of `main`, run on the truncated list. -/
def mainRun {G : Type} (libs : Libs G) (osrm_server : String)
    (server : Nat → List OsrmResponse) (features : List (Feature G)) :
    RunOut :=
  runFeatures libs osrm_server server (processedFeatures features) 0

/-- Python `str` of a list of node ids, as pandas stringifies the cell. -/
def pyStrIntList (xs : List Int) : String :=
  "[" ++ String.intercalate ", " (xs.map toString) ++ "]"

/-- Python `str` of the nested per-leg node lists. -/
def pyStrNodeList (xss : List (List Int)) : String :=
  "[" ++ String.intercalate ", " (xss.map pyStrIntList) ++ "]"

/-- Python `str` of one coordinate pair. -/
def pyStrCoord (c : Rat × Rat) : String :=
  "[" ++ toString c.1 ++ ", " ++ toString c.2 ++ "]"

/-- Python `str` of the coordinate list. -/
def pyStrCoordList (cs : List (Rat × Rat)) : String :=
  "[" ++ String.intercalate ", " (cs.map pyStrCoord) ++ "]"

/-- Minimal CSV quoting as the csv writer does: quote a cell containing a
comma or a quote, doubling inner quotes. -/
def csvQuote (s : String) : String :=
  if s.contains (',') || s.contains ('"') then
    "\"" ++ (s.replace "\"" "\"\"") ++ "\""
  else s

/-- Line 150: `pandas.DataFrame(return_list)` infers the columns from the
record keys; an empty record list yields a frame with no columns at all.
Under the Python 2 runtime the script's docstring commits to, pandas builds
a frame from a list of plain dicts with the columns sorted alphabetically
(Python 2 dicts carry no insertion order), so the columns are
`coord_list, id, name, node_list`. -/
def dfColumns (recs : List MatchRecord) : List String :=
  if recs.isEmpty then [] else ["coord_list", "id", "name", "node_list"]

/-- The four cell strings of one record's CSV row, following the
alphabetically sorted column order of `dfColumns`. -/
def recordCells (r : MatchRecord) : List String :=
  [pyStrCoordList r.coord_list, r.id, r.name, pyStrNodeList r.node_list]

/-- One CSV data row. -/
def csvRow (r : MatchRecord) : String :=
  String.intercalate "," ((recordCells r).map csvQuote)

/-- Line 151: `to_csv(output_filename, index = False)` — a header line made
of the inferred columns, then one row per record in list order. -/
def csvLines (recs : List MatchRecord) : List String :=
  String.intercalate "," (dfColumns recs) :: recs.map csvRow

/-- The lines of the CSV file the run writes, or `none` when the run aborts
before reaching the export (lines 147-151 are only reached on completion). -/
def mainCsv {G : Type} (libs : Libs G) (osrm_server : String)
    (server : Nat → List OsrmResponse) (features : List (Feature G)) :
    Option (List String) :=
  match mainRun libs osrm_server server features with
  | .finished recs _ _ => some (csvLines recs)
  | .aborted _ _ _ => none

/-- A small concrete geometry type used to instantiate the abstract library
operations in witnesses. -/
inductive ToyGeom
  | line (cs : List (Rat × Rat))
  | multi (ps : List (List (Rat × Rat)))
  | blob (tag : Nat) (cs : List (Rat × Rat))
deriving DecidableEq

/-- Coordinates of a toy geometry. -/
def ToyGeom.coordsOf : ToyGeom → List (Rat × Rat)
  | .line cs => cs
  | .multi ps => ps.flatten
  | .blob _ cs => cs

/-- A concrete instantiation of the library operations, injective enough to
distinguish the order in which the pipeline applies them. -/
def toyLibs : Libs ToyGeom where
  geomType := fun g => match g with
    | .line _ => "LineString"
    | .multi _ => "MultiLineString"
    | .blob _ _ => "Geometry"
  buffer := fun g r => .blob 1 (g.coordsOf ++ [(r, r)])
  simplify := fun g t p => .blob 2 (g.coordsOf ++ [(t, if p then 1 else 0)])
  linemerge := fun g => .line g.coordsOf
  coords := ToyGeom.coordsOf
  showGeom := fun _ => "GEOM"
  polylineEncode := fun cs p => "enc:" ++ toString cs.length ++ ":" ++ toString p

/-- A sample OSRM leg. -/
def sampleLeg : Leg := ⟨[11, 22, 33]⟩

/-- A sample OSRM route with one leg. -/
def sampleRoute : Route := ⟨[sampleLeg], [(1, 2), (3, 4)]⟩

/-- A 200 response with one route and one leg. -/
def okResp : OsrmResponse := ⟨200, [], [sampleRoute]⟩

/-- A 404 response. -/
def notFoundResp : OsrmResponse := ⟨404, [], []⟩

/-- A 429 response carrying the rate-limit header with value `v`. -/
def limitedResp (v : Int) : OsrmResponse :=
  ⟨429, [("X-Rate-Limit-Interval", v)], []⟩

/-- A 429 response with no headers at all. -/
def bareLimitedResp : OsrmResponse := ⟨429, [], []⟩

/-- A sample LineString feature. -/
def toyFeature : Feature ToyGeom := ⟨"RD1", "Road One", .line [(1, 2), (3, 4)]⟩

/-- A second sample LineString feature. -/
def toyFeatureB : Feature ToyGeom := ⟨"RD2", "Road Two", .line [(5, 6)]⟩

/-- A sample MultiLineString feature. -/
def toyMultiFeature : Feature ToyGeom :=
  ⟨"RD3", "Road Three", .multi [[(1, 1)], [(2, 2)]]⟩

/-- The record produced for `toyFeature` matched against `okResp`. -/
def sampleRecord : MatchRecord :=
  ⟨"RD1", "Road One", [[11, 22, 33]], [(1, 2), (3, 4)]⟩

/-- The sleeps recorded in a loop result, whatever its shape. -/
def LoopOut.sleepsOf : LoopOut → List Int
  | .exited s _ => s
  | .keyError s => s
  | .starved s => s

/-- A server that answers the first processed feature with `a` and every
later one with `b`. -/
def twoFeatureServer (a b : List OsrmResponse) : Nat → List OsrmResponse :=
  fun i => if i = 0 then a else b

lemma processFeature_url {G : Type} (libs : Libs G) (osrm_server : String)
    (f : Feature G) (resps : List OsrmResponse) :
    (processFeature libs osrm_server f resps).url =
      featureUrl libs osrm_server f := by
  cases resps <;> rfl

/-- C1: for a feature whose map-matching call answers HTTP 200 with one
route and one leg, the record appended to the output list is exactly the
feature's road ID as `id`, its road name as `name`, the per-leg node lists
of route 0 as `node_list`, and route 0's coordinates as `coord_list`. -/
theorem c1_matched_record {G : Type} (libs : Libs G) (osrm_server : String)
    (server : Nat → List OsrmResponse) (f : Feature G)
    (r : OsrmResponse) (route : Route) (leg : Leg)
    (hresp : server 0 = [r]) (hstatus : r.status_code = 200)
    (hroutes : r.routes = [route]) (hlegs : route.legs = [leg]) :
    (mainRun libs osrm_server server [f]).records =
      [⟨f.road, f.road_name, [leg.nodes], route.coordinates⟩] := by
  simp [mainRun, processedFeatures, runFeatures, processFeature, hresp,
    retryLoop, hstatus, afterLoop, buildRecord, hroutes, hlegs,
    chosen_osrm_match, RunOut.records]

/-- Witness for C1 at a concrete feature and response. -/
theorem c1_matched_record_witness :
    (mainRun toyLibs "http://osrm/" (fun _ => [okResp]) [toyFeature]).records =
      [⟨toyFeature.road, toyFeature.road_name, [sampleLeg.nodes],
        sampleRoute.coordinates⟩] :=
  c1_matched_record toyLibs "http://osrm/" (fun _ => [okResp]) toyFeature
    okResp sampleRoute sampleLeg rfl rfl rfl rfl

/-- C6: a MultiLineString geometry is buffered with radius 0.1, simplified
with tolerance 0.1 and topology preservation disabled, then line-merged, in
that order, and the result's coordinates are polyline-encoded into the
request URL; a LineString geometry skips those three steps and is encoded
directly. -/
theorem c6_normalization {G : Type} (libs : Libs G) (osrm_server : String)
    (f fL : Feature G) (resps respsL : List OsrmResponse)
    (hm : libs.geomType f.geometry = "MultiLineString")
    (hl : libs.geomType fL.geometry = "LineString") :
    (processFeature libs osrm_server f resps).url =
      osrmUrl osrm_server (libs.polylineEncode (libs.coords
        (libs.linemerge (libs.simplify (libs.buffer f.geometry (1/10))
          (1/10) false))) 5) ∧
    (processFeature libs osrm_server fL respsL).url =
      osrmUrl osrm_server (libs.polylineEncode (libs.coords fL.geometry) 5) := by
  constructor
  · rw [processFeature_url]
    simp [featureUrl, normalizeGeometry, hm]
  · rw [processFeature_url]
    simp [featureUrl, normalizeGeometry, hl]

/-- Witness for C6 at concrete MultiLineString and LineString features. -/
theorem c6_normalization_witness :
    (processFeature toyLibs "s" toyMultiFeature []).url =
      osrmUrl "s" (toyLibs.polylineEncode (toyLibs.coords
        (toyLibs.linemerge (toyLibs.simplify
          (toyLibs.buffer toyMultiFeature.geometry (1/10)) (1/10) false))) 5) ∧
    (processFeature toyLibs "s" toyFeature []).url =
      osrmUrl "s" (toyLibs.polylineEncode (toyLibs.coords toyFeature.geometry) 5) :=
  c6_normalization toyLibs "s" toyMultiFeature toyFeature [] [] rfl rfl

/-- C7: the processed feature list is the input truncated to its first 100
entries, so it has at most 100 elements and the run's result only depends on
the first 100 features. -/
theorem c7_truncation {G : Type} (libs : Libs G) (osrm_server : String)
    (server : Nat → List OsrmResponse) (features : List (Feature G)) :
    (processedFeatures features).length ≤ 100 ∧
    mainRun libs osrm_server server features =
      mainRun libs osrm_server server (features.take 100) := by
  constructor
  · exact List.length_take_le 100 features
  · simp [mainRun, processedFeatures, List.take_take]

lemma afterLoop_fst (road_id road_name : String) (L : LoopOut) :
    (afterLoop road_id road_name L).1 = L.sleepsOf := by
  cases L with
  | keyError s => rfl
  | starved s => rfl
  | exited s r =>
    simp only [afterLoop]
    split
    · cases buildRecord road_id road_name r <;> rfl
    · rfl

lemma retryLoop_starved_of_all_429 :
    ∀ (rest : List OsrmResponse) (r : OsrmResponse),
      (∀ x ∈ r :: rest, x.status_code = 429 ∧
        (List.lookup "X-Rate-Limit-Interval" x.headers).isSome = true) →
      ∃ s, retryLoop r rest = .starved s ∧ s.length = rest.length + 1 := by
  intro rest
  induction rest with
  | nil =>
    intro r h
    obtain ⟨h429, hsome⟩ := h r (List.mem_cons_self r [])
    obtain ⟨v, hv⟩ := Option.isSome_iff_exists.mp hsome
    exact ⟨[retryTime v], by simp [retryLoop, h429, hv], rfl⟩
  | cons r2 rs ih =>
    intro r h
    obtain ⟨h429, hsome⟩ := h r (List.mem_cons_self r (r2 :: rs))
    obtain ⟨v, hv⟩ := Option.isSome_iff_exists.mp hsome
    obtain ⟨s, hs, hlen⟩ := ih r2 (fun x hx => h x (List.mem_cons_of_mem r hx))
    refine ⟨retryTime v :: s, ?_, by simp [hlen]⟩
    rw [retryLoop.eq_def]
    simp [h429, hv, hs]

/-- C3: a feature whose matching call answers a status that is neither 200
nor 429 yields no record, prints the message with the status code, issues a
single request (no retry, no sleep), and the run goes on to the next
feature and finishes. -/
theorem c3_dropped_on_other_status {G : Type} (libs : Libs G)
    (osrm_server : String) (server : Nat → List OsrmResponse)
    (f1 f2 : Feature G) (r1 r2 : OsrmResponse) (route : Route) (leg : Leg)
    (hresp1 : server 0 = [r1]) (hnot200 : r1.status_code ≠ 200)
    (hnot429 : r1.status_code ≠ 429)
    (hresp2 : server 1 = [r2]) (hstatus2 : r2.status_code = 200)
    (hroutes : r2.routes = [route]) (hlegs : route.legs = [leg]) :
    (mainRun libs osrm_server server [f1, f2]).records =
      [⟨f2.road, f2.road_name, [leg.nodes], route.coordinates⟩] ∧
    failMsg r1.status_code ∈ (mainRun libs osrm_server server [f1, f2]).printed ∧
    (processFeature libs osrm_server f1 (server 0)).sleeps = [] ∧
    (processFeature libs osrm_server f1 (server 0)).requests = 1 ∧
    (mainRun libs osrm_server server [f1, f2]).isAborted = false := by
  refine ⟨?_, ?_, ?_, ?_, ?_⟩ <;>
    simp [mainRun, processedFeatures, runFeatures, processFeature, hresp1,
      hresp2, retryLoop, hnot200, hnot429, hstatus2, afterLoop, buildRecord,
      hroutes, hlegs, chosen_osrm_match, RunOut.records, RunOut.printed,
      RunOut.isAborted]

/-- Witness for C3: a 404 on the first feature, a clean match on the second. -/
theorem c3_dropped_on_other_status_witness :
    (mainRun toyLibs "s" (twoFeatureServer [notFoundResp] [okResp])
        [toyFeature, toyFeatureB]).records =
      [⟨toyFeatureB.road, toyFeatureB.road_name, [sampleLeg.nodes],
        sampleRoute.coordinates⟩] ∧
    failMsg notFoundResp.status_code ∈
      (mainRun toyLibs "s" (twoFeatureServer [notFoundResp] [okResp])
        [toyFeature, toyFeatureB]).printed ∧
    (processFeature toyLibs "s" toyFeature
      (twoFeatureServer [notFoundResp] [okResp] 0)).sleeps = [] ∧
    (processFeature toyLibs "s" toyFeature
      (twoFeatureServer [notFoundResp] [okResp] 0)).requests = 1 ∧
    (mainRun toyLibs "s" (twoFeatureServer [notFoundResp] [okResp])
        [toyFeature, toyFeatureB]).isAborted = false :=
  c3_dropped_on_other_status toyLibs "s"
    (twoFeatureServer [notFoundResp] [okResp]) toyFeature toyFeatureB
    notFoundResp okResp sampleRoute sampleLeg rfl (by decide) (by decide)
    rfl rfl rfl rfl

/-- C4: against a server that answers 429 (with the rate-limit header) to
every request, the retry loop never exits: however many responses the
server has produced, the feature's processing is still spinning and has
slept once per response, with no retry bound. -/
theorem c4_persistent_429_never_terminates {G : Type} (libs : Libs G)
    (osrm_server : String) (f : Feature G) (resps : List OsrmResponse)
    (hne : resps ≠ [])
    (hall : ∀ x ∈ resps, x.status_code = 429 ∧
      (List.lookup "X-Rate-Limit-Interval" x.headers).isSome = true) :
    (processFeature libs osrm_server f resps).outcome = Outcome.hung ∧
    (processFeature libs osrm_server f resps).sleeps.length = resps.length := by
  match resps, hne with
  | r0 :: rest, _ =>
    obtain ⟨s, hs, hlen⟩ := retryLoop_starved_of_all_429 rest r0 hall
    refine ⟨?_, ?_⟩ <;> simp [processFeature, hs, afterLoop, hlen]

/-- Witness for C4 with two consecutive 429 responses. -/
theorem c4_persistent_429_never_terminates_witness :
    (processFeature toyLibs "s" toyFeature
        [limitedResp 4, limitedResp 4]).outcome = Outcome.hung ∧
    (processFeature toyLibs "s" toyFeature
        [limitedResp 4, limitedResp 4]).sleeps.length =
      ([limitedResp 4, limitedResp 4] : List OsrmResponse).length :=
  c4_persistent_429_never_terminates toyLibs "s" toyFeature
    [limitedResp 4, limitedResp 4] (by decide) (by decide)

/-- C5: when the server answers 429 once (with header value v) and then 200
with one route and one leg, exactly one sleep happens and the appended
record is built from the 200 response. -/
theorem c5_retry_once {G : Type} (libs : Libs G) (osrm_server : String)
    (server : Nat → List OsrmResponse) (f : Feature G)
    (r1 r2 : OsrmResponse) (v : Int) (route : Route) (leg : Leg)
    (hresp : server 0 = [r1, r2]) (h429 : r1.status_code = 429)
    (hhdr : List.lookup "X-Rate-Limit-Interval" r1.headers = some v)
    (h200 : r2.status_code = 200) (hroutes : r2.routes = [route])
    (hlegs : route.legs = [leg]) :
    (mainRun libs osrm_server server [f]).sleeps = [retryTime v] ∧
    (mainRun libs osrm_server server [f]).records =
      [⟨f.road, f.road_name, [leg.nodes], route.coordinates⟩] := by
  constructor <;>
    simp [mainRun, processedFeatures, runFeatures, processFeature, hresp,
      retryLoop, h429, hhdr, h200, afterLoop, buildRecord, hroutes, hlegs,
      chosen_osrm_match, RunOut.records, RunOut.sleeps]

/-- Witness for C5: one 429 with header value 7, then the 200 response. -/
theorem c5_retry_once_witness :
    (mainRun toyLibs "s" (fun _ => [limitedResp 7, okResp])
        [toyFeature]).sleeps = [retryTime 7] ∧
    (mainRun toyLibs "s" (fun _ => [limitedResp 7, okResp])
        [toyFeature]).records =
      [⟨toyFeature.road, toyFeature.road_name, [sampleLeg.nodes],
        sampleRoute.coordinates⟩] :=
  c5_retry_once toyLibs "s" (fun _ => [limitedResp 7, okResp]) toyFeature
    (limitedResp 7) okResp 7 sampleRoute sampleLeg rfl rfl (by decide) rfl
    rfl rfl

/-- C8 counterexample: with rate-limit header value 5 the script sleeps 2
seconds (Python 2 integer division of `int(...)` by 2), and 2 is not half
of 5. -/
theorem c8_counterexample :
    (processFeature toyLibs "s" toyFeature
        [limitedResp 5, okResp]).sleeps = [2] ∧
    ¬ (((2 : Int) : Rat) = (5 : Rat) / 2) := by
  constructor
  · decide
  · norm_num

/-- C8 amended: the duration slept before the retry is the integer floor of
half the header value (`int(...) / 2` under Python 2), which equals v/2
only when v is even. -/
theorem c8_floor_half_sleep {G : Type} (libs : Libs G) (osrm_server : String)
    (f : Feature G) (r1 r2 : OsrmResponse) (v : Int)
    (h429 : r1.status_code = 429)
    (hhdr : List.lookup "X-Rate-Limit-Interval" r1.headers = some v)
    (hexit : r2.status_code ≠ 429) :
    (processFeature libs osrm_server f [r1, r2]).sleeps = [Int.fdiv v 2] := by
  have hloop : retryLoop r1 [r2] = .exited [retryTime v] r2 := by
    rw [retryLoop.eq_def]
    simp [retryLoop, h429, hhdr, hexit]
  show (afterLoop f.road f.road_name (retryLoop r1 [r2])).1 = [Int.fdiv v 2]
  rw [hloop, afterLoop_fst]
  rfl

/-- Witness for C8's amended statement at header value 7. -/
theorem c8_floor_half_sleep_witness :
    (processFeature toyLibs "s" toyFeature
        [limitedResp 7, notFoundResp]).sleeps = [Int.fdiv 7 2] :=
  c8_floor_half_sleep toyLibs "s" toyFeature (limitedResp 7) notFoundResp 7
    rfl (by decide) (by decide)

/-- C9: a 429 response without the `X-Rate-Limit-Interval` header makes the
retry branch crash on the header lookup: no sleep, no record, the run
aborts before any later feature and the CSV is never written. -/
theorem c9_missing_header_crashes {G : Type} (libs : Libs G)
    (osrm_server : String) (server : Nat → List OsrmResponse)
    (f1 f2 : Feature G) (r : OsrmResponse)
    (hresp : server 0 = [r]) (h429 : r.status_code = 429)
    (hhdr : List.lookup "X-Rate-Limit-Interval" r.headers = none) :
    (mainRun libs osrm_server server [f1, f2]).isAborted = true ∧
    (mainRun libs osrm_server server [f1, f2]).records = [] ∧
    (mainRun libs osrm_server server [f1, f2]).sleeps = [] ∧
    mainCsv libs osrm_server server [f1, f2] = none := by
  refine ⟨?_, ?_, ?_, ?_⟩ <;>
    simp [mainRun, mainCsv, processedFeatures, runFeatures, processFeature,
      hresp, retryLoop, h429, hhdr, afterLoop, RunOut.records, RunOut.sleeps,
      RunOut.isAborted]

/-- Witness for C9: a bare 429 response with no headers. -/
theorem c9_missing_header_crashes_witness :
    (mainRun toyLibs "s" (fun _ => [bareLimitedResp])
        [toyFeature, toyFeatureB]).isAborted = true ∧
    (mainRun toyLibs "s" (fun _ => [bareLimitedResp])
        [toyFeature, toyFeatureB]).records = [] ∧
    (mainRun toyLibs "s" (fun _ => [bareLimitedResp])
        [toyFeature, toyFeatureB]).sleeps = [] ∧
    mainCsv toyLibs "s" (fun _ => [bareLimitedResp])
      [toyFeature, toyFeatureB] = none :=
  c9_missing_header_crashes toyLibs "s" (fun _ => [bareLimitedResp])
    toyFeature toyFeatureB bareLimitedResp rfl rfl rfl

/-- C10: a run that finishes with an empty record list exports a CSV whose
only line is empty — the frame has no columns, so the header
`id,name,node_list,coord_list` does not appear. -/
theorem c10_empty_run_csv_has_no_columns {G : Type} (libs : Libs G)
    (osrm_server : String) (server : Nat → List OsrmResponse)
    (features : List (Feature G)) (p : List String) (s : List Int)
    (hfin : mainRun libs osrm_server server features = .finished [] p s) :
    mainCsv libs osrm_server server features = some [""] ∧
    "id,name,node_list,coord_list" ∉ ([""] : List String) := by
  constructor
  · simp only [mainCsv, hfin]
    decide
  · decide

/-- Witness for C10: the empty feature collection. -/
theorem c10_empty_run_csv_has_no_columns_witness :
    mainCsv toyLibs "s" (fun _ => []) ([] : List (Feature ToyGeom)) =
      some [""] ∧
    "id,name,node_list,coord_list" ∉ ([""] : List String) :=
  c10_empty_run_csv_has_no_columns toyLibs "s" (fun _ => []) [] [] [] rfl

/-- C2 counterexample: in a run with one matched feature the exported CSV's
header line is the alphabetically sorted `coord_list,id,name,node_list`
(pandas under the script's Python 2 runtime sorts the record keys), which
is not the claimed `id,name,node_list,coord_list`. -/
theorem c2_counterexample :
    mainCsv toyLibs "s" (fun _ => [okResp]) [toyFeature] =
      some (csvLines [sampleRecord]) ∧
    (csvLines [sampleRecord]).head? = some "coord_list,id,name,node_list" ∧
    "coord_list,id,name,node_list" ≠ "id,name,node_list,coord_list" := by
  have h : mainRun toyLibs "s" (fun _ => [okResp]) [toyFeature] =
      .finished [sampleRecord] ["GEOM"] [] := by decide
  refine ⟨by simp [mainCsv, h], by decide, by decide⟩

/-- C2 amended: a finished run exports a header line followed by exactly one
row per matched record, in processing order; since the script runs under
Python 2, pandas sorts the record keys alphabetically, so the header is
`coord_list,id,name,node_list` whenever at least one feature was matched
(and is empty when none was), with the row cells in that column order. -/
theorem c2_csv_layout {G : Type} (libs : Libs G) (osrm_server : String)
    (server : Nat → List OsrmResponse) (features : List (Feature G))
    (recs : List MatchRecord) (p : List String) (s : List Int)
    (hfin : mainRun libs osrm_server server features = .finished recs p s) :
    mainCsv libs osrm_server server features = some (csvLines recs) ∧
    (csvLines recs).length = recs.length + 1 ∧
    (csvLines recs).tail = recs.map csvRow ∧
    (recs ≠ [] →
      (csvLines recs).head? = some "coord_list,id,name,node_list") := by
  refine ⟨?_, ?_, ?_, ?_⟩
  · simp [mainCsv, hfin]
  · simp [csvLines]
  · simp [csvLines]
  · intro hne
    simp [csvLines, dfColumns, List.isEmpty_iff, hne]
    rfl

/-- Witness for C2's amended statement: one matched feature. -/
theorem c2_csv_layout_witness :
    mainCsv toyLibs "s" (fun _ => [okResp]) [toyFeature] =
      some (csvLines [sampleRecord]) ∧
    (csvLines [sampleRecord]).length = [sampleRecord].length + 1 ∧
    (csvLines [sampleRecord]).tail = [sampleRecord].map csvRow ∧
    (([sampleRecord] : List MatchRecord) ≠ [] →
      (csvLines [sampleRecord]).head? =
        some "coord_list,id,name,node_list") :=
  c2_csv_layout toyLibs "s" (fun _ => [okResp]) [toyFeature] [sampleRecord]
    ["GEOM"] [] (by decide)

end HvsNetwork
